import Mathlib

/-!
Shallow embedding of the HyprContext Activity Monitoring & Focus-Tracking
Engine (Python sources: focus.py, analyzer.py, main.py, database.py,
config.py) together with theorems settling the specification claims.

Conventions of the embedding:
* Python `str` is modelled as Lean `String` at interfaces and `List Char`
  inside the text-processing pipeline; Python `int` as `Int`.
* Python float division in `used / daily_limit > 0.8` is modelled exactly
  over `ℚ`.
* I/O effects (JSONL file, vector store, desktop notification) are modelled
  as explicit state threaded through the functions; fallibility of external
  collaborators (HTTP call, embedding service, file write, notify-send) is
  modelled by injected outcome parameters, since the Python code catches the
  corresponding exceptions at exactly the modelled boundaries.
-/

namespace HyprContext

/-- Newline character (written via its code point to keep literals uniform). -/
def nlChar : Char := Char.ofNat 10

/-- ASCII apostrophe. -/
def aposChar : Char := Char.ofNat 39

/-- ASCII double quote. -/
def dquoteChar : Char := Char.ofNat 34

/-- Python `\s` / `str.strip` whitespace on the ASCII range
(space, tab, newline, carriage return, vertical tab, form feed). -/
def isPyWs (c : Char) : Bool :=
  c = ' ' || c = Char.ofNat 9 || c = nlChar || c = Char.ofNat 13 ||
  c = Char.ofNat 11 || c = Char.ofNat 12

/-- Python `str.lower`, restricted to ASCII letters (all keyword tables in the
source are already lowercase, so this is the only case the code exercises). -/
def pyLower (c : Char) : Char := c.toLower

/-- `s.strip()`: drop whitespace from both ends. -/
def trimChars (l : List Char) : List Char :=
  ((l.dropWhile isPyWs).reverse.dropWhile isPyWs).reverse

/-- Decide whether `pat` is a prefix of `l` (helper for substring search). -/
def isPrefixList : List Char → List Char → Bool
  | [], _ => true
  | _ :: _, [] => false
  | p :: ps, c :: cs => p == c && isPrefixList ps cs

/-- Python substring test `needle in hay` on character lists. -/
def containsSeq : List Char → List Char → Bool
  | [], needle => needle.isEmpty
  | c :: t, needle => isPrefixList needle (c :: t) || containsSeq t needle

/-- Python `s.split(",")` (on an already exploded string). -/
def splitOnComma (l : List Char) : List (List Char) :=
  l.foldr
    (fun c acc =>
      if c = ',' then [] :: acc
      else
        match acc with
        | h :: t => (c :: h) :: t
        | [] => [[c]])
    [[]]

/-- Python `s.split("\n")`. -/
def splitOnNl (l : List Char) : List (List Char) :=
  l.foldr
    (fun c acc =>
      if c = nlChar then [] :: acc
      else
        match acc with
        | h :: t => (c :: h) :: t
        | [] => [[c]])
    [[]]

/-- Split at the first `]`: returns the characters before it and the rest
after it, or `none` when no `]` occurs. -/
def breakRBrack : List Char → Option (List Char × List Char)
  | [] => none
  | c :: t =>
    if c = ']' then some ([], t)
    else
      match breakRBrack t with
      | some (a, b) => some (c :: a, b)
      | none => none

namespace Analyzer

/-- One pass of `re.sub(r'\s*\[[^\]]+\]\s+', ...)`-style scanning used by
`_extract_summary` (analyzer.py): delete every match of
`\s*\[[^\]]+\]\s*`, scanning left to right.  `fuel` bounds the recursion
(each step consumes at least one character, so `cs.length` suffices). -/
def removeBracketsAux : Nat → List Char → List Char
  | 0, _ => []
  | _, [] => []
  | fuel + 1, c :: rest =>
    let afterWs := (c :: rest).dropWhile isPyWs
    match afterWs with
    | b :: r2 =>
      if b = '[' then
        match breakRBrack r2 with
        | some (grp, r3) =>
          if grp.isEmpty then c :: removeBracketsAux fuel rest
          else removeBracketsAux fuel (r3.dropWhile isPyWs)
        | none => c :: removeBracketsAux fuel rest
      else c :: removeBracketsAux fuel rest
    | [] => c :: removeBracketsAux fuel rest

/-- `re.sub(r'\s*\[[^\]]+\]\s*', '', text)` of `_extract_summary`. -/
def removeBrackets (cs : List Char) : List Char :=
  removeBracketsAux cs.length cs

/-- `re.sub(r'^["\']|["\']$', '', s)`: drop one leading and one trailing
quote character. -/
def stripQuotes (l : List Char) : List Char :=
  let l1 :=
    match l with
    | c :: t => if c = dquoteChar || c = aposChar then t else l
    | [] => []
  match l1.reverse with
  | c :: t => if c = dquoteChar || c = aposChar then t.reverse else l1
  | [] => l1

/-- `re.sub(r'\s+', ' ', s)`: collapse each maximal whitespace run to one
space (fuelled; each step consumes at least one character). -/
def collapseWsAux : Nat → List Char → List Char
  | 0, _ => []
  | _, [] => []
  | fuel + 1, c :: rest =>
    if isPyWs c then ' ' :: collapseWsAux fuel (rest.dropWhile isPyWs)
    else c :: collapseWsAux fuel rest

/-- `re.sub(r'\s+', ' ', s)`. -/
def collapseWs (cs : List Char) : List Char :=
  collapseWsAux cs.length cs

/-- `re.search(r'\[([^\]]+)\]', text)` of `_extract_tags`: the group of the
leftmost `[` that is followed by at least one non-`]` character and then a
`]`. -/
def firstBracketGroup : List Char → Option (List Char)
  | [] => none
  | c :: t =>
    if c = '[' then
      match breakRBrack t with
      | some (grp, _) =>
        if grp.isEmpty then firstBracketGroup t else some grp
      | none => firstBracketGroup t
    else firstBracketGroup t

/-- `OllamaAnalyzer._extract_tags` (analyzer.py): split the bracket group on
commas, strip each part, drop empties and the literal placeholder
"genel" (case-insensitively). -/
def extractTags (text : List Char) : List (List Char) :=
  match firstBracketGroup text with
  | some g =>
    ((splitOnComma g).map trimChars).filter
      (fun t => !t.isEmpty && !(t.map pyLower == "genel".toList))
  | none => []

/-- `OllamaAnalyzer._extract_summary` (analyzer.py). -/
def extractSummary (text : List Char) : List Char :=
  let s := removeBrackets text
  let s := trimChars s
  let s := stripQuotes s
  let s := collapseWs s
  let s := if s.length > 200 then s.take 197 ++ "...".toList else s
  if s.isEmpty then "Aktivite analiz edilemedi".toList else s

/-- `app_keywords` table of `_infer_tags` (analyzer.py), in source order. -/
def appKeywords : List (String × String) :=
  [("vs code", "VS Code"), ("vscode", "VS Code"),
   ("visual studio", "Visual Studio"), ("cursor", "Cursor"),
   ("sublime", "Sublime Text"), ("notepad", "Notepad++"),
   ("pycharm", "PyCharm"), ("intellij", "IntelliJ"),
   ("webstorm", "WebStorm"), ("android studio", "Android Studio"),
   ("terminal", "Terminal"), ("powershell", "PowerShell"), ("cmd", "CMD"),
   ("chrome", "Chrome"), ("firefox", "Firefox"), ("edge", "Edge"),
   ("discord", "Discord"), ("slack", "Slack"), ("teams", "Teams"),
   ("spotify", "Spotify"), ("youtube", "YouTube"), ("netflix", "Netflix"),
   ("twitter", "Twitter"), ("reddit", "Reddit")]

/-- `lang_keywords` table of `_infer_tags` (analyzer.py), in source order. -/
def langKeywords : List (String × String) :=
  [("python", "Python"), ("rust", "Rust"), ("go ", "Go"), ("golang", "Go"),
   ("javascript", "JavaScript"), ("typescript", "TypeScript"),
   ("react", "React"), ("vue", "Vue"), ("angular", "Angular"),
   ("c#", "C#"), ("c++", "C++"), ("java ", "Java"), ("kotlin", "Kotlin"),
   ("swift", "Swift"), ("html", "HTML"), ("css", "CSS"), ("sql", "SQL")]

/-- `activity_keywords` table of `_infer_tags` (analyzer.py), in source
order. -/
def activityKeywords : List (String × String) :=
  [("kod", "Geliştirme"), ("geliştir", "Geliştirme"),
   ("düzenl", "Düzenleme"), ("yaz", "Yazma"), ("izl", "İzleme"),
   ("dinl", "Dinleme"), ("araştır", "Araştırma"), ("öğren", "Öğrenme"),
   ("test", "Test"), ("debug", "Hata Ayıklama"), ("derle", "Derleme"),
   ("build", "Derleme")]

/-- First keyword of a table occurring in the lowercased text (each of the
three loops in `_infer_tags` breaks after its first hit). -/
def firstKeywordHit (table : List (String × String)) (lower : List Char) :
    Option String :=
  table.findSome? (fun p => if containsSeq lower p.1.toList then some p.2 else none)

/-- `OllamaAnalyzer._infer_tags` (analyzer.py): at most one tag per table,
fallback tag "Aktivite", capped at 3. -/
def inferTags (text : String) : List String :=
  let lower := text.toList.map pyLower
  let tags :=
    (firstKeywordHit appKeywords lower).toList ++
    (firstKeywordHit langKeywords lower).toList ++
    (firstKeywordHit activityKeywords lower).toList
  let tags := if tags.isEmpty then ["Aktivite"] else tags
  tags.take 3

/-- `OllamaAnalyzer._parse_response` (analyzer.py): returns
`(summary, tags)`. -/
def parseResponse (text : String) : String × List String :=
  let cs := trimChars text.toList
  let tags := extractTags cs
  let summary := String.mk (extractSummary cs)
  if tags.isEmpty then (summary, inferTags summary)
  else (summary, tags.map String.mk)

/-- `AnalysisResult` dataclass (analyzer.py). -/
structure AnalysisResult where
  summary : String
  tags : List String
  raw_response : String
deriving DecidableEq, Repr

/-- Outcome of the Ollama chat request made by the synchronous
`analyze_image`: either a raw response content string, or an exception,
split exactly as the two `except` clauses split it (`httpx.HTTPError`
versus any other `Exception`); the carried string is `str(e)`. -/
inductive OllamaOutcome where
  | success (raw : String)
  | httpError (msg : String)
  | otherError (msg : String)
deriving DecidableEq, Repr

/-- `OllamaAnalyzer.analyze_image` (analyzer.py), from the point where the
request outcome is known: parse on success, degrade to an error result in
the two exception handlers. -/
def analyzeImage (outcome : OllamaOutcome) : AnalysisResult :=
  match outcome with
  | .success raw =>
    let p := parseResponse raw
    ⟨p.1, p.2, raw⟩
  | .httpError e => ⟨"Analiz başarısız: " ++ e, ["Hata"], ""⟩
  | .otherError e => ⟨"Beklenmeyen hata: " ++ e, ["Hata"], ""⟩

end Analyzer

namespace Focus

/-- `FocusData` dataclass of focus.py (field defaults 0 / `None`). -/
structure FocusData where
  date : String
  distraction_seconds : Int
  distraction_count : Int
  focus_sessions : Int
  last_distraction : Option String
deriving DecidableEq, Repr

/-- `FocusData(date=today)`: a fresh zeroed record for a day. -/
def FocusData.fresh (today : String) : FocusData :=
  ⟨today, 0, 0, 0, none⟩

/-- `FocusWarning` dataclass of focus.py. -/
structure FocusWarning where
  warning_type : String
  message : String
  urgency : String
  keyword : Option String
deriving DecidableEq, Repr

/-- `FocusTracker.format_duration` (focus.py): Python `//` and `%` are floor
division and nonnegative remainder, i.e. `Int.fdiv` / `Int.emod`. -/
def formatDuration (seconds : Int) : String :=
  if seconds < 60 then toString seconds ++ "s"
  else if seconds < 3600 then
    let minutes := seconds.fdiv 60
    let secs := seconds.emod 60
    if secs ≠ 0 then toString minutes ++ "dk " ++ toString secs ++ "s"
    else toString minutes ++ "dk"
  else
    let hours := seconds.fdiv 3600
    let minutes := (seconds.emod 3600).fdiv 60
    if minutes ≠ 0 then toString hours ++ "sa " ++ toString minutes ++ "dk"
    else toString hours ++ "sa"

/-- `FocusTracker._check_warnings` (focus.py).  The tracker's
`daily_limit` and `threshold` constructor arguments are passed explicitly;
the float comparison `used / self.daily_limit > 0.8` is modelled exactly
over `ℚ`. -/
def checkWarnings (daily_limit threshold : Int) (d : FocusData) :
    Option FocusWarning :=
  let used := d.distraction_seconds
  let remaining := daily_limit - used
  if remaining ≤ 0 then
    some ⟨"limit",
      "⛔ Günlük dikkat dağıtıcı limitiniz doldu! (" ++ formatDuration used ++ ")",
      "critical", d.last_distraction⟩
  else if (8 : ℚ) / 10 < (used : ℚ) / (daily_limit : ℚ) then
    some ⟨"time",
      "⚠️ Dikkat! Kalan süre: " ++ formatDuration remaining,
      "normal", d.last_distraction⟩
  else if threshold ≤ d.distraction_count then
    some ⟨"distraction",
      "🔔 Odaklan! " ++ toString d.distraction_count ++
        " kez dikkat dağıtıcı tespit edildi.",
      "low", d.last_distraction⟩
  else none

/-- `FocusTracker.add_distraction` (focus.py): roll over to a fresh record
when the stored date is stale, accumulate, persist (the returned `FocusData`
is the persisted state) and evaluate warnings. -/
def addDistraction (today : String) (daily_limit threshold : Int)
    (seconds : Int) (keyword : Option String) (d : FocusData) :
    FocusData × Option FocusWarning :=
  let d0 := if d.date ≠ today then FocusData.fresh today else d
  let d1 : FocusData :=
    { d0 with
      distraction_seconds := d0.distraction_seconds + seconds,
      distraction_count := d0.distraction_count + 1,
      last_distraction := keyword }
  (d1, checkWarnings daily_limit threshold d1)

/-- `FocusTracker.start_focus_session` (focus.py): increment the session
counter, zero the distraction counter, persist.  Note: the source performs
no calendar-date check here. -/
def startFocusSession (d : FocusData) : FocusData :=
  { d with
    focus_sessions := d.focus_sessions + 1,
    distraction_count := 0 }

end Focus

namespace Database

/-- A document of the searchable vector index, with the metadata written by
`save_to_vectordb` (database.py); the embedding vector itself and the
generated document id are external collaborator data and are not part of
the modelled state. -/
structure VecDoc where
  text : String
  timestamp : String
  date : String
  time : String
deriving DecidableEq, Repr

/-- `parse_timestamp` (database.py).  The tuple destructuring of
`timestamp.split("T")` raises when the split does not yield exactly two
parts; that exception path is modelled as `none` (it is caught by the
caller `save_to_vectordb`). -/
def parseTimestamp (ts : String) : Option (String × String) :=
  if containsSeq ts.toList "T".toList then
    match ts.splitOn "T" with
    | [d, t] => some (d, t.take 5)
    | _ => none
  else some (ts.take 10, "00:00")

/-- `save_to_jsonl` (database.py): append one line to the durable log and
return `True`; any write failure is caught, logged and returned as
`False` (the injected `writeOk` flag models whether the file write
raises). -/
def saveToJsonl (writeOk : Bool) (ts summary : String)
    (log : List (String × String)) : List (String × String) × Bool :=
  if writeOk then (log ++ [(ts, summary)], true) else (log, false)

/-- `save_to_vectordb` (database.py): embed, derive date/time metadata and
add the document; any failure (collection access, embedding call, the
`parse_timestamp` destructuring) happens before `collection.add`, is
caught and returned as `False`.  `embedOk` injects the
collaborator-failure outcome. -/
def saveToVectordb (embedOk : Bool) (text ts : String)
    (db : List VecDoc) : List VecDoc × Bool :=
  if embedOk then
    match parseTimestamp ts with
    | some (d, t) => (db ++ [⟨text, ts, d, t⟩], true)
    | none => (db, false)
  else (db, false)

/-- `save_memory` (database.py): dual write, durable log first, then the
searchable index; returns the conjunction of the two outcome flags.  The
caller always supplies a timestamp (main.py does), so the `None` default
branch is not modelled. -/
def saveMemory (jsonlOk embedOk : Bool) (analysis ts : String)
    (log : List (String × String)) (db : List VecDoc) :
    (List (String × String) × List VecDoc) × Bool :=
  let j := saveToJsonl jsonlOk ts analysis log
  let v := saveToVectordb embedOk analysis ts db
  ((j.1, v.1), j.2 && v.2)

end Database

namespace MainLoop

/-- A backtracking matcher for the fixed regular expressions of
`clean_output` (main.py): it returns the list of possible remainders after
a match starting at the head of the input, in the priority order of
Python's `re` backtracking (so the head of the result is the remainder of
the match `re` would report). -/
def Matcher := List Char → List (List Char)

/-- Case-insensitive literal (all the source patterns are compiled with
`re.IGNORECASE`). -/
def mLitAux : List Char → List Char → Option (List Char)
  | [], cs => some cs
  | _ :: _, [] => none
  | p :: ps, c :: cs => if pyLower c = pyLower p then mLitAux ps cs else none

/-- Literal matcher. -/
def mLit (s : String) : Matcher := fun cs => (mLitAux s.toList cs).toList

/-- Single-character class matcher. -/
def mCls (p : Char → Bool) : Matcher :=
  fun cs =>
    match cs with
    | c :: t => if p c then [t] else []
    | [] => []

/-- Sequencing (backtracking order preserved). -/
def mSeq (a b : Matcher) : Matcher := fun cs => (a cs).flatMap b

/-- Alternation: left branch preferred. -/
def mAlt (a b : Matcher) : Matcher := fun cs => a cs ++ b cs

/-- Empty match. -/
def mEps : Matcher := fun cs => [cs]

/-- Greedy `?`: try the element first, then the empty match. -/
def mOpt (a : Matcher) : Matcher := mAlt a mEps

/-- Greedy `[c]*` over a character class: longest first. -/
def mStarCls (p : Char → Bool) : Matcher :=
  fun cs =>
    let n := (cs.takeWhile p).length
    (List.range (n + 1)).map (fun k => cs.drop (n - k))

/-- Greedy `[c]+` over a character class: longest first, at least one. -/
def mPlusCls (p : Char → Bool) : Matcher :=
  fun cs =>
    let n := (cs.takeWhile p).length
    (List.range n).map (fun k => cs.drop (n - k))

/-- Non-greedy `.*?` (no DOTALL: `.` excludes the newline): shortest
first. -/
def mAnyShortest : Matcher :=
  fun cs =>
    let n := (cs.takeWhile (fun c => !(c == nlChar))).length
    (List.range (n + 1)).map (fun k => cs.drop k)

/-- Sequence a list of matchers. -/
def mSeqs (l : List Matcher) : Matcher := l.foldr mSeq mEps

/-- `\s*`. -/
def wsStar : Matcher := mStarCls isPyWs

/-- `\s+`. -/
def wsPlus : Matcher := mPlusCls isPyWs

/-- Character class over an explicit list. -/
def clsOf (cs : List Char) : Char → Bool := fun c => cs.contains c

/-- `r"^Okay[,.]?\s*"` (clean_output english_patterns, main.py). -/
def pOkay : Matcher :=
  mSeqs [mLit "Okay", mOpt (mCls (clsOf [',', '.'])), wsStar]

/-- `r"^Here'?s?\s*(the|an|my)?\s*(analysis|output)?[:.]*\s*"`. -/
def pHeres : Matcher :=
  mSeqs [mLit "Here", mOpt (mCls (fun c => c == aposChar)),
         mOpt (mCls (fun c => pyLower c == 's')), wsStar,
         mOpt (mAlt (mLit "the") (mAlt (mLit "an") (mLit "my"))), wsStar,
         mOpt (mAlt (mLit "analysis") (mLit "output")),
         mStarCls (clsOf [':', '.']), wsStar]

/-- `r"^Let'?s\s+analyze[:.]*\s*"`. -/
def pLets : Matcher :=
  mSeqs [mLit "Let", mOpt (mCls (fun c => c == aposChar)), mLit "s",
         wsPlus, mLit "analyze", mStarCls (clsOf [':', '.']), wsStar]

/-- `r"^Based on\s+.*?[,:]\s*"`. -/
def pBasedOn : Matcher :=
  mSeqs [mLit "Based on", wsPlus, mAnyShortest, mCls (clsOf [',', ':']),
         wsStar]

/-- `r"^Looking at\s+.*?[,:]\s*"`. -/
def pLookingAt : Matcher :=
  mSeqs [mLit "Looking at", wsPlus, mAnyShortest, mCls (clsOf [',', ':']),
         wsStar]

/-- `r"^\*\*Analysis:?\*\*\s*"`. -/
def pBoldAnalysis : Matcher :=
  mSeqs [mLit "**Analysis", mOpt (mCls (clsOf [':'])), mLit "**", wsStar]

/-- `r"^\*\*Output:?\*\*\s*"`. -/
def pBoldOutput : Matcher :=
  mSeqs [mLit "**Output", mOpt (mCls (clsOf [':'])), mLit "**", wsStar]

/-- `r"^##?\s*(Analysis|Output|Summary)[:.]*\s*"`. -/
def pHeader : Matcher :=
  mSeqs [mLit "#", mOpt (mCls (fun c => c == '#')), wsStar,
         mAlt (mLit "Analysis") (mAlt (mLit "Output") (mLit "Summary")),
         mStarCls (clsOf [':', '.']), wsStar]

/-- The eight `english_patterns` of `clean_output` (main.py), in source
order. -/
def englishPatterns : List Matcher :=
  [pOkay, pHeres, pLets, pBasedOn, pLookingAt, pBoldAnalysis, pBoldOutput,
   pHeader]

/-- `re.sub(pattern, "", text, flags=re.IGNORECASE | re.MULTILINE)` for a
`^`-anchored pattern: scan left to right, attempting a match at every
line-start position of the original text; each step consumes at least one
character, so `cs.length` fuel suffices (the source patterns never match
the empty string; the defensive zero-length case just advances). -/
def subAux (m : Matcher) : Nat → Bool → List Char → List Char
  | 0, _, _ => []
  | _, _, [] => []
  | fuel + 1, lineStart, c :: rest =>
    if lineStart then
      match m (c :: rest) with
      | r :: _ =>
        let total := (c :: rest).length
        if r.length = total then c :: subAux m fuel (c == nlChar) rest
        else
          let consumed := (c :: rest).take (total - r.length)
          subAux m fuel (consumed.getLast? == some nlChar) r
      | [] => c :: subAux m fuel (c == nlChar) rest
    else c :: subAux m fuel (c == nlChar) rest

/-- Delete every match of a `^`-anchored multiline pattern. -/
def subPattern (m : Matcher) (cs : List Char) : List Char :=
  subAux m cs.length true cs

/-- `re.sub(r'^[-*•]\s*', '', line)`: strip one leading list marker and the
whitespace after it (the pattern is anchored and the flags are default, so
at most one match at position 0). -/
def stripBullet (l : List Char) : List Char :=
  match l with
  | c :: t =>
    if c == '-' || c == '*' || c == '•' then t.dropWhile isPyWs else l
  | [] => []

/-- `re.sub(r'\*\*([^*]+)\*\*', r'\1', line)`: unwrap every bold span,
scanning left to right (fuelled; each step consumes at least one
character). -/
def unboldAux : Nat → List Char → List Char
  | 0, _ => []
  | _, [] => []
  | fuel + 1, c :: rest =>
    if c == '*' then
      match rest with
      | c2 :: r2 =>
        if c2 == '*' then
          let inner := r2.takeWhile (fun x => !(x == '*'))
          let rem := r2.drop inner.length
          if inner.isEmpty then c :: unboldAux fuel rest
          else
            match rem with
            | s1 :: s2 :: r3 =>
              if s1 == '*' && s2 == '*' then inner ++ unboldAux fuel r3
              else c :: unboldAux fuel rest
            | _ => c :: unboldAux fuel rest
        else c :: unboldAux fuel rest
      | [] => [c]
    else c :: unboldAux fuel rest

/-- Unwrap all `**bold**` spans. -/
def unbold (l : List Char) : List Char := unboldAux l.length l

/-- The per-line cleanup of `clean_output`: strip, drop empty and
bare-punctuation lines, strip list markers, unwrap bold markup. -/
def cleanLine (l : List Char) : Option (List Char) :=
  let l := trimChars l
  if l.isEmpty || l == ['-'] || l == ['*'] || l == ['•'] || l == ['—'] then
    none
  else some (unbold (stripBullet l))

/-- The Turkish characters used by the line-selection heuristic of
`clean_output`. -/
def turkishChars : List Char := "çğıöşüÇĞİÖŞÜ".toList

/-- `re.search(r'\[([^\]]+)\]\s*$', result)`: the leftmost `[` whose
nonempty group runs to the next `]` which is followed only by whitespace;
returns the text before the match and the group. -/
def searchTrailingTags : List Char → Option (List Char × List Char)
  | [] => none
  | c :: t =>
    if c == '[' then
      match breakRBrack t with
      | some (grp, rest) =>
        if !grp.isEmpty && rest.all isPyWs then some ([], grp)
        else
          match searchTrailingTags t with
          | some (pre, g) => some (c :: pre, g)
          | none => none
      | none => none
    else
      match searchTrailingTags t with
      | some (pre, g) => some (c :: pre, g)
      | none => none

/-- `re.sub(r',\s*', ', ', tags)` (fuelled; each step consumes at least one
character). -/
def fixCommasAux : Nat → List Char → List Char
  | 0, _ => []
  | _, [] => []
  | fuel + 1, c :: rest =>
    if c == ',' then ',' :: ' ' :: fixCommasAux fuel (rest.dropWhile isPyWs)
    else c :: fixCommasAux fuel rest

/-- Normalise comma spacing inside a tag group. -/
def fixCommas (l : List Char) : List Char := fixCommasAux l.length l

/-- `app_tags` table of `infer_tags` (main.py), in source order. -/
def appTagsMain : List (String × String) :=
  [("vscode", "VSCode"), ("vs code", "VSCode"), ("code", "VSCode"),
   ("terminal", "Terminal"), ("kitty", "Terminal"), ("konsole", "Terminal"),
   ("chrome", "Chrome"), ("firefox", "Firefox"), ("zen", "Tarayıcı"),
   ("obsidian", "Obsidian"), ("notion", "Notion"),
   ("youtube", "YouTube"), ("spotify", "Spotify"), ("netflix", "Netflix"),
   ("discord", "Discord"), ("slack", "Slack"), ("telegram", "Telegram"),
   ("cursor", "Cursor")]

/-- The eight activity keyword groups of `infer_tags` (main.py), in source
order. -/
def activityGroupsMain : List (List String × String) :=
  [(["python", ".py", "def ", "import "], "Python"),
   (["javascript", ".js", "react", "node"], "JavaScript"),
   (["git", "commit", "push", "pull"], "Git"),
   (["video", "izle", "oynat"], "Video"),
   (["ara", "search", "google"], "Araştırma"),
   (["kod", "fonksiyon", "class", "düzenl"], "Geliştirme"),
   (["dokümantasyon", "docs", "readme"], "Dokümantasyon"),
   (["pip", "npm", "install", "kur"], "Kurulum")]

/-- `infer_tags` (main.py): one application tag at most (the loop breaks on
the first hit), then the eight independent activity checks, then pad with
"Geliştirme" when fewer than two tags were found, cap at four and join
with ", ". -/
def inferTagsMain (text : String) : String :=
  let lower := text.toList.map pyLower
  let appTag :=
    appTagsMain.findSome?
      (fun p => if containsSeq lower p.1.toList then some p.2 else none)
  let actTags :=
    activityGroupsMain.filterMap
      (fun g =>
        if g.1.any (fun k => containsSeq lower k.toList) then some g.2
        else none)
  let tags := appTag.toList ++ actTags
  let tags :=
    if tags.length < 2 && !(tags.contains "Geliştirme") then
      tags ++ ["Geliştirme"]
    else tags
  if tags.isEmpty then "Aktivite"
  else String.intercalate ", " (tags.take 4)

/-- `clean_output` (main.py). -/
def cleanOutput (raw : String) : String :=
  let text := trimChars raw.toList
  let text := englishPatterns.foldl (fun t m => subPattern m t) text
  let cleanedLines := (splitOnNl (trimChars text)).filterMap cleanLine
  let result? :=
    match cleanedLines.find? (fun l => l.contains '[' && l.contains ']') with
    | some r => some r
    | none =>
      match cleanedLines.find?
          (fun l => l.any (fun c => turkishChars.contains c)) with
      | some r => some r
      | none => cleanedLines.head?
  match result? with
  | none => String.mk (trimChars raw.toList)
  | some result =>
    match searchTrailingTags result with
    | some (pre, grp) =>
      let summary := trimChars pre
      let tags := fixCommas grp
      let tags :=
        if (trimChars tags).map pyLower == "genel".toList then
          (inferTagsMain (String.mk summary)).toList
        else tags
      String.mk (summary ++ " [".toList ++ tags ++ "]".toList)
    | none =>
      String.mk result ++ " [" ++ inferTagsMain (String.mk result) ++ "]"

/-- `extract_summary` (main.py),
`re.search(r'^(.*?)\s*\[[^\]]+\]\s*$', text)`: scan match-start positions
left to right while the prefix is newline-free; at each, require
whitespace, a bracket group (nonempty, up to the next `]`) and trailing
whitespace to the end.  Returns the group-1 prefix on a match. -/
def esmAux : Nat → List Char → List Char → Option (List Char)
  | 0, _, _ => none
  | fuel + 1, preRev, cs =>
    let rest := cs.dropWhile isPyWs
    let hit :=
      match rest with
      | b :: r2 =>
        if b == '[' then
          match breakRBrack r2 with
          | some (grp, r3) => !grp.isEmpty && r3.all isPyWs
          | none => false
        else false
      | [] => false
    if hit then some preRev.reverse
    else
      match cs with
      | c :: t => if c == nlChar then none else esmAux fuel (c :: preRev) t
      | [] => none

/-- `extract_summary` (main.py): the summary before a trailing tag group,
stripped; the whole stripped text when no trailing tag group exists. -/
def extractSummaryMain (text : List Char) : List Char :=
  match esmAux (text.length + 1) [] text with
  | some pre => trimChars pre
  | none => trimChars text

/-- `YASAKLI_KELIMELER` default (config.py). -/
def yasakliKelimeler : List String :=
  ["youtube", "instagram", "twitter", "reddit", "oyun", "netflix", "video",
   "tiktok"]

/-- `RAM_SIZE` default (config.py). -/
def ramSize : Nat := 5

/-- `DISTRACTION_THRESHOLD` default (config.py). -/
def distractionThreshold : Int := 3

/-- `check_distraction` (main.py): substring-scan the lowercased analysis
for banned keywords, bump or cool down the global counter, and enter the
notification branch when the counter reaches the threshold.  `notifyOk`
injects whether `notify-send` is present (on `FileNotFoundError` the
counter is not reset).  The returned flag records whether the
notification branch was entered. -/
def checkDistraction (banned : List String) (threshold : Int)
    (notifyOk : Bool) (analysis : String) (count : Int) : Int × Bool :=
  let lower := analysis.toList.map pyLower
  let distracted := banned.any (fun k => containsSeq lower k.toList)
  let c1 :=
    if distracted then count + 1
    else if 0 < count then count - 1
    else count
  if threshold ≤ c1 then ((if notifyOk then 0 else c1), true) else (c1, false)

/-- One append to `short_term_memory` (`deque(maxlen=RAM_SIZE)`,
main.py line 32): append on the right, evict from the left beyond the
capacity. -/
def dequePush (cap : Nat) (l : List String) (x : String) : List String :=
  let l2 := l ++ [x]
  if cap < l2.length then l2.drop (l2.length - cap) else l2

/-- The short-term-memory rendering of `analyze_image`
(main.py lines 266–270): the last three entries joined with an arrow, or
the session-start sentinel when the buffer is empty. -/
def renderMemory (mem : List String) : String :=
  if mem.isEmpty then "Yeni oturum"
  else String.intercalate " → " (mem.drop (mem.length - 3))

/-- `analyze_image` (main.py) from the point where the inference outcome is
known: clean the raw content on success; on any exception (`except
Exception` at lines 304–306) return `None`. -/
def analyzeImageMain (outcome : Except String String) : Option String :=
  match outcome with
  | .ok raw => some (cleanOutput raw)
  | .error _ => none

/-- The mutable state the perpetual loop of `main` (main.py) threads
through iterations: the short-term memory deque, the two persistence
stores and the global distraction counter. -/
structure LoopState where
  memory : List String
  jsonl : List (String × String)
  vectordb : List Database.VecDoc
  distraction_count : Int
deriving DecidableEq, Repr

/-- One iteration of the `while True` loop of `main` (main.py
lines 322–351): screenshot, analyze, and — only when a truthy analysis
string came back (Python's `if analysis:` skips both `None` and the empty
string) — persist, run the distraction check and append the extracted
summary to short-term memory.  Timing, logging and screenshot-file cleanup
have no modelled state. -/
def loopIteration (banned : List String) (threshold : Int) (cap : Nat)
    (screenshotOk : Bool) (outcome : Except String String) (ts : String)
    (jsonlOk embedOk notifyOk : Bool) (st : LoopState) : LoopState :=
  if screenshotOk then
    match analyzeImageMain outcome with
    | some analysis =>
      if analysis.isEmpty then st
      else
        let sm := Database.saveMemory jsonlOk embedOk analysis ts st.jsonl
          st.vectordb
        let cd := checkDistraction banned threshold notifyOk analysis
          st.distraction_count
        { memory :=
            dequePush cap st.memory (String.mk (extractSummaryMain
              analysis.toList)),
          jsonl := sm.1.1,
          vectordb := sm.1.2,
          distraction_count := cd.1 }
    | none => st
  else st

end MainLoop

end HyprContext

open HyprContext

/-- The float comparison `used / daily_limit > 0.8` of `_check_warnings`,
taken exactly over `ℚ`, is the integer comparison `5 * used > 4 * limit`
whenever the limit is positive. -/
theorem ratio_gt_iff (used limit : Int) (hl : 0 < limit) :
    ((8 : ℚ) / 10 < (used : ℚ) / (limit : ℚ)) ↔ 4 * limit < 5 * used := by
  have h10 : (0 : ℚ) < 10 := by norm_num
  have hlq : (0 : ℚ) < (limit : ℚ) := by exact_mod_cast hl
  rw [div_lt_div_iff₀ h10 hlq]
  constructor
  · intro h
    have h3 : (8 * limit : Int) < used * 10 := by exact_mod_cast h
    omega
  · intro h
    have h3 : (8 * limit : Int) < used * 10 := by omega
    have h2 : ((8 * limit : Int) : ℚ) < ((used * 10 : Int) : ℚ) := by
      exact_mod_cast h3
    push_cast at h2
    linarith

/-- The warning classification of `_check_warnings`, with the rational
80 %-comparison replaced by its integer form. -/
theorem checkWarnings_classify (daily_limit threshold : Int)
    (d : Focus.FocusData) (hl : 0 < daily_limit) :
    Option.map Focus.FocusWarning.warning_type
        (Focus.checkWarnings daily_limit threshold d) =
      (if daily_limit ≤ d.distraction_seconds then some "limit"
       else if 4 * daily_limit < 5 * d.distraction_seconds then some "time"
       else if threshold ≤ d.distraction_count then some "distraction"
       else none) := by
  have key := ratio_gt_iff d.distraction_seconds daily_limit hl
  by_cases h1 : daily_limit - d.distraction_seconds ≤ 0
  · rw [if_pos (by omega : daily_limit ≤ d.distraction_seconds)]
    simp [Focus.checkWarnings, h1]
  · rw [if_neg (by omega : ¬ daily_limit ≤ d.distraction_seconds)]
    by_cases h2 : (8 : ℚ) / 10 <
        (d.distraction_seconds : ℚ) / (daily_limit : ℚ)
    · rw [if_pos (key.mp h2)]
      simp [Focus.checkWarnings, h1, h2]
    · rw [if_neg (fun hc => h2 (key.mpr hc))]
      by_cases h3 : threshold ≤ d.distraction_count
      · rw [if_pos h3]
        simp [Focus.checkWarnings, h1, h2, h3]
      · rw [if_neg h3]
        simp [Focus.checkWarnings, h1, h2, h3]

/-- C1: `add_distraction` returns at most one warning, selected by strict
priority limit > time (>80 %) > threshold: it returns the "limit" warning
iff accumulated seconds reach the daily allowance, otherwise the "time"
warning iff strictly more than 80 % of the allowance is consumed,
otherwise the "distraction" warning iff the counter reaches the threshold,
otherwise none; and from a fresh day, one call with `seconds = limit`
yields the limit warning, one call with `seconds = 0.81 * limit`
(1458 of 1800) yields the time warning, and `threshold` (3) one-second
calls end in the threshold warning. -/
theorem add_distraction_warning_priority :
    (∀ (daily_limit threshold : Int) (d : Focus.FocusData),
      0 < daily_limit →
      Option.map Focus.FocusWarning.warning_type
          (Focus.checkWarnings daily_limit threshold d) =
        (if daily_limit ≤ d.distraction_seconds then some "limit"
         else if 4 * daily_limit < 5 * d.distraction_seconds then some "time"
         else if threshold ≤ d.distraction_count then some "distraction"
         else none)) ∧
    Option.map Focus.FocusWarning.warning_type
        (Focus.addDistraction "2026-10-12" 1800 3 1800 none
          (Focus.FocusData.fresh "2026-10-12")).2 = some "limit" ∧
    Option.map Focus.FocusWarning.warning_type
        (Focus.addDistraction "2026-10-12" 1800 3 1458 none
          (Focus.FocusData.fresh "2026-10-12")).2 = some "time" ∧
    (Option.map Focus.FocusWarning.warning_type
        (Focus.addDistraction "2026-10-12" 1800 3 1 none
          (Focus.FocusData.fresh "2026-10-12")).2 = none ∧
     Option.map Focus.FocusWarning.warning_type
        (Focus.addDistraction "2026-10-12" 1800 3 1 none
          (Focus.addDistraction "2026-10-12" 1800 3 1 none
            (Focus.FocusData.fresh "2026-10-12")).1).2 = none ∧
     Option.map Focus.FocusWarning.warning_type
        (Focus.addDistraction "2026-10-12" 1800 3 1 none
          (Focus.addDistraction "2026-10-12" 1800 3 1 none
            (Focus.addDistraction "2026-10-12" 1800 3 1 none
              (Focus.FocusData.fresh "2026-10-12")).1).1).2 =
       some "distraction") := by
  refine ⟨fun a b c h => checkWarnings_classify a b c h, ?_, ?_, ?_, ?_, ?_⟩
  · rw [show (Focus.addDistraction "2026-10-12" 1800 3 1800 none
        (Focus.FocusData.fresh "2026-10-12")).2 =
        Focus.checkWarnings 1800 3 ⟨"2026-10-12", 1800, 1, 0, none⟩
        from rfl,
      checkWarnings_classify 1800 3 _ (by norm_num)]
    decide
  · rw [show (Focus.addDistraction "2026-10-12" 1800 3 1458 none
        (Focus.FocusData.fresh "2026-10-12")).2 =
        Focus.checkWarnings 1800 3 ⟨"2026-10-12", 1458, 1, 0, none⟩
        from rfl,
      checkWarnings_classify 1800 3 _ (by norm_num)]
    decide
  · rw [show (Focus.addDistraction "2026-10-12" 1800 3 1 none
        (Focus.FocusData.fresh "2026-10-12")).2 =
        Focus.checkWarnings 1800 3 ⟨"2026-10-12", 1, 1, 0, none⟩
        from rfl,
      checkWarnings_classify 1800 3 _ (by norm_num)]
    decide
  · rw [show (Focus.addDistraction "2026-10-12" 1800 3 1 none
        (Focus.addDistraction "2026-10-12" 1800 3 1 none
          (Focus.FocusData.fresh "2026-10-12")).1).2 =
        Focus.checkWarnings 1800 3 ⟨"2026-10-12", 2, 2, 0, none⟩
        from rfl,
      checkWarnings_classify 1800 3 _ (by norm_num)]
    decide
  · rw [show (Focus.addDistraction "2026-10-12" 1800 3 1 none
        (Focus.addDistraction "2026-10-12" 1800 3 1 none
          (Focus.addDistraction "2026-10-12" 1800 3 1 none
            (Focus.FocusData.fresh "2026-10-12")).1).1).2 =
        Focus.checkWarnings 1800 3 ⟨"2026-10-12", 3, 3, 0, none⟩
        from rfl,
      checkWarnings_classify 1800 3 _ (by norm_num)]
    decide

/-- C1 witness: the priority classification evaluated at daily limit 1800,
threshold 3 and 1700 accumulated seconds gives the "time" warning. -/
theorem add_distraction_warning_priority_witness :
    Option.map Focus.FocusWarning.warning_type
        (Focus.checkWarnings 1800 3 ⟨"2026-10-12", 1700, 0, 0, none⟩) =
      some "time" := by
  rw [add_distraction_warning_priority.1 1800 3
    ⟨"2026-10-12", 1700, 0, 0, none⟩ (by norm_num)]
  decide

/-- C2 counterexample: `start_focus_session` applies its mutation to a
stale record (day `2026-10-11`, current date `2026-10-12`) without
replacing it by a fresh zeroed record first — the accumulated 500
distraction seconds and the stale day survive. -/
theorem daily_rollover_counterexample :
    Focus.startFocusSession ⟨"2026-10-11", 500, 2, 1, some "x"⟩ =
      ⟨"2026-10-11", 500, 0, 2, some "x"⟩ ∧
    Focus.startFocusSession ⟨"2026-10-11", 500, 2, 1, some "x"⟩ ≠
      Focus.startFocusSession (Focus.FocusData.fresh "2026-10-12") := by
  decide

/-- C2 (amended): only `add_distraction` performs the daily rollover: when
the stored day differs from the current date, the state is first replaced
by a fresh zeroed record for the new date and the mutation is applied to
it; `start_focus_session` applies its mutation to the stored record
without any date check. -/
theorem daily_rollover_add_distraction (today : String)
    (daily_limit threshold seconds : Int) (kw : Option String)
    (d : Focus.FocusData) (h : d.date ≠ today) :
    (Focus.addDistraction today daily_limit threshold seconds kw d).1 =
      ⟨today, seconds, 1, 0, kw⟩ ∧
    (Focus.startFocusSession d).date = d.date ∧
    (Focus.startFocusSession d).distraction_seconds =
      d.distraction_seconds := by
  refine ⟨?_, rfl, rfl⟩
  simp [Focus.addDistraction, Focus.FocusData.fresh, h]

/-- C2 witness: the rollover of `add_distraction` evaluated on a stale
record. -/
theorem daily_rollover_add_distraction_witness :
    (Focus.addDistraction "2026-10-12" 1800 3 60 (some "youtube")
      ⟨"2026-10-11", 999, 7, 4, some "old"⟩).1 =
      ⟨"2026-10-12", 60, 1, 0, some "youtube"⟩ :=
  (daily_rollover_add_distraction "2026-10-12" 1800 3 60 (some "youtube")
    ⟨"2026-10-11", 999, 7, 4, some "old"⟩ (by decide)).1

/-- C9: `start_focus_session` increments `focus_sessions` by exactly one,
resets `distraction_count` to 0, and leaves `distraction_seconds`, the
stored day and the last distraction keyword unchanged (the mutated record
is the state that `_save` persists). -/
theorem start_session_frame (d : Focus.FocusData) :
    (Focus.startFocusSession d).focus_sessions = d.focus_sessions + 1 ∧
    (Focus.startFocusSession d).distraction_count = 0 ∧
    (Focus.startFocusSession d).distraction_seconds =
      d.distraction_seconds ∧
    (Focus.startFocusSession d).date = d.date ∧
    (Focus.startFocusSession d).last_distraction = d.last_distraction := by
  refine ⟨rfl, rfl, rfl, rfl, rfl⟩

/-- The final fallback of `_extract_summary`: an empty cleaned text is
replaced by the fixed degradation message, so the result is never
empty. -/
theorem ifEmpty_default_ne_nil (b : List Char) :
    (if b.isEmpty then "Aktivite analiz edilemedi".toList else b) ≠ [] := by
  split
  · decide
  · next h => exact fun hc => h (by simp [hc])

/-- `_extract_summary` never returns the empty text. -/
theorem extractSummary_ne_nil (l : List Char) :
    Analyzer.extractSummary l ≠ [] := by
  simp only [Analyzer.extractSummary]
  exact ifEmpty_default_ne_nil _

/-- A string built from a nonempty character list is nonempty. -/
theorem string_mk_ne_empty (l : List Char) (h : l ≠ []) :
    String.mk l ≠ "" := by
  intro hc
  apply h
  have h2 := congrArg String.data hc
  simpa using h2

/-- Both branches of `_parse_response` return the text of
`_extract_summary` as the summary. -/
theorem parse_fst_eq (text : String) :
    (Analyzer.parseResponse text).1 =
      String.mk (Analyzer.extractSummary (trimChars text.toList)) := by
  simp only [Analyzer.parseResponse, apply_ite Prod.fst]
  rw [ite_self]

/-- The tag list built by `_infer_tags` has at least one entry: the
fallback inserts "Aktivite" and `take 3` keeps a nonempty list
nonempty. -/
theorem take3_if_len_pos (t : List String) :
    1 ≤ ((if t.isEmpty then ["Aktivite"] else t).take 3).length := by
  cases t with
  | nil => decide
  | cons a r => simp [List.length_take]

/-- `_infer_tags` always yields at least one tag. -/
theorem inferTags_len_pos (s : String) :
    1 ≤ (Analyzer.inferTags s).length := by
  simp only [Analyzer.inferTags]
  exact take3_if_len_pos _

/-- C3 counterexample: tags taken from a bracket group are not capped — on
the input `"x [a, b, c, d, e]"`, `_parse_response` returns five tags, so
the claimed upper bound of 4 fails. -/
theorem parse_tags_bound_counterexample :
    (Analyzer.parseResponse "x [a, b, c, d, e]").2.length = 5 ∧
    ¬ (1 ≤ (Analyzer.parseResponse "x [a, b, c, d, e]").2.length ∧
       (Analyzer.parseResponse "x [a, b, c, d, e]").2.length ≤ 4) := by
  decide

/-- C3 (amended): `_parse_response` never raises (it is a total function)
and, for every non-empty raw input, returns a non-empty summary and at
least one tag (the 1–4 upper bound does not hold for bracket-extracted
tags; only inferred tags are capped). -/
theorem parse_nonempty_summary_tags (text : String) (h : text ≠ "") :
    (Analyzer.parseResponse text).1 ≠ "" ∧
    1 ≤ (Analyzer.parseResponse text).2.length := by
  constructor
  · rw [parse_fst_eq]
    exact string_mk_ne_empty _ (extractSummary_ne_nil _)
  · cases hb : (Analyzer.extractTags (trimChars text.toList)).isEmpty with
    | true =>
      simp only [Analyzer.parseResponse, hb, if_true]
      exact inferTags_len_pos _
    | false =>
      simp only [Analyzer.parseResponse, hb, Bool.false_eq_true, if_false,
        List.length_map]
      exact List.length_pos.mpr (fun hc => by rw [hc] at hb; simp at hb)

/-- C3 witness: the amended statement evaluated at the input "abc". -/
theorem parse_nonempty_summary_tags_witness :
    (Analyzer.parseResponse "abc").1 ≠ "" ∧
    1 ≤ (Analyzer.parseResponse "abc").2.length :=
  parse_nonempty_summary_tags "abc" (by decide)

set_option maxHeartbeats 4000000 in
/-- C7: on `"Kod yaziliyor. [Genel]"` the bracket group reduces to the
placeholder and is dropped, so the tags are re-inferred from the summary
via the keyword tables, giving a nonempty tag list different from
`["Genel"]`. -/
theorem parse_genel_reinferred :
    Analyzer.parseResponse "Kod yaziliyor. [Genel]" =
      ("Kod yaziliyor.", ["Geliştirme"]) ∧
    Analyzer.inferTags "Kod yaziliyor." = ["Geliştirme"] ∧
    1 ≤ (Analyzer.parseResponse "Kod yaziliyor. [Genel]").2.length ∧
    (Analyzer.parseResponse "Kod yaziliyor. [Genel]").2 ≠ ["Genel"] := by
  decide

/-- C10: the synchronous `analyze_image` of analyzer.py never raises to its
caller: each of the two exception handlers returns a degraded
`AnalysisResult` with tags exactly `["Hata"]`, empty `raw_response` and a
non-empty error-message summary. -/
theorem analyze_image_error_degraded (msg : String) :
    Analyzer.analyzeImage (Analyzer.OllamaOutcome.httpError msg) =
      ⟨"Analiz başarısız: " ++ msg, ["Hata"], ""⟩ ∧
    Analyzer.analyzeImage (Analyzer.OllamaOutcome.otherError msg) =
      ⟨"Beklenmeyen hata: " ++ msg, ["Hata"], ""⟩ ∧
    (Analyzer.analyzeImage (Analyzer.OllamaOutcome.httpError msg)).summary ≠
      "" ∧
    (Analyzer.analyzeImage (Analyzer.OllamaOutcome.otherError msg)).summary ≠
      "" := by
  refine ⟨rfl, rfl, ?_, ?_⟩
  · intro hc
    rw [show (Analyzer.analyzeImage
        (Analyzer.OllamaOutcome.httpError msg)).summary =
        "Analiz başarısız: " ++ msg from rfl] at hc
    have hlen := congrArg String.length hc
    rw [String.length_append] at hlen
    have h1 : 0 < "Analiz başarısız: ".length := by decide
    have h0 : ("" : String).length = 0 := rfl
    omega
  · intro hc
    rw [show (Analyzer.analyzeImage
        (Analyzer.OllamaOutcome.otherError msg)).summary =
        "Beklenmeyen hata: " ++ msg from rfl] at hc
    have hlen := congrArg String.length hc
    rw [String.length_append] at hlen
    have h1 : 0 < "Beklenmeyen hata: ".length := by decide
    have h0 : ("" : String).length = 0 := rfl
    omega

/-- C4: an iteration whose AI inference call raises (the `except Exception`
path of `analyze_image`, main.py) leaves the whole loop state unchanged:
zero records are persisted to either store, the short-term memory buffer
is untouched, the distraction counter is untouched, and the iteration
function returns normally, so the perpetual loop proceeds to its next
scheduled iteration. -/
theorem inference_failure_aborts_iteration (e : String)
    (banned : List String) (threshold : Int) (cap : Nat) (ts : String)
    (jsonlOk embedOk notifyOk : Bool) (st : MainLoop.LoopState) :
    MainLoop.loopIteration banned threshold cap true (Except.error e) ts
      jsonlOk embedOk notifyOk st = st := rfl

/-- Each single push to the bounded deque yields a buffer of at most the
capacity. -/
theorem length_dequePush_le (cap : Nat) (l : List String) (x : String) :
    (MainLoop.dequePush cap l x).length ≤ cap := by
  simp only [MainLoop.dequePush]
  split
  · rw [List.length_drop]
    omega
  · next hle => omega

/-- C5: after any sequence of appends starting from the empty buffer, the
short-term memory holds at most the configured capacity of entries; a push
to a full buffer evicts the oldest entry first; rendering the empty buffer
yields the session-start sentinel, and otherwise the join of the recent
(last three) entries, oldest to newest, with the arrow separator. -/
theorem short_term_memory_bounds :
    (∀ (cap : Nat) (xs : List String),
      (xs.foldl (MainLoop.dequePush cap) []).length ≤ cap) ∧
    (∀ (cap : Nat) (l : List String) (x : String),
      l.length = cap → 0 < cap →
      MainLoop.dequePush cap l x = l.tail ++ [x]) ∧
    MainLoop.renderMemory [] = "Yeni oturum" ∧
    (∀ mem : List String, mem ≠ [] →
      MainLoop.renderMemory mem =
        String.intercalate " → " (mem.drop (mem.length - 3))) := by
  refine ⟨?_, ?_, rfl, ?_⟩
  · intro cap xs
    have H : ∀ (ys init : List String), init.length ≤ cap →
        (ys.foldl (MainLoop.dequePush cap) init).length ≤ cap := by
      intro ys
      induction ys with
      | nil => intro init h; simpa using h
      | cons y t ih =>
        intro init h
        exact ih _ (length_dequePush_le cap init y)
    exact H xs [] (by simp)
  · intro cap l x hlen hpos
    simp only [MainLoop.dequePush]
    rw [if_pos (by simp [hlen] : cap < (l ++ [x]).length)]
    have h1 : (l ++ [x]).length - cap = 1 := by simp [hlen]
    rw [h1, List.drop_append_of_le_length (by omega : 1 ≤ l.length),
      List.drop_one]
  · intro mem h
    simp only [MainLoop.renderMemory]
    rw [if_neg (fun hc => h (List.isEmpty_iff.mp hc))]

/-- C5 witness: eviction and rendering evaluated on concrete buffers. -/
theorem short_term_memory_bounds_witness :
    MainLoop.dequePush 2 ["a", "b"] "c" = ["b", "c"] ∧
    MainLoop.renderMemory ["a", "b"] = "a → b" := by
  constructor
  · rw [short_term_memory_bounds.2.1 2 ["a", "b"] "c" rfl (by decide)]
    rfl
  · rw [short_term_memory_bounds.2.2.2 ["a", "b"] (by decide)]
    decide

/-- C6: the durable-log write and the searchable-index write of
`save_memory` are independent: when the index write fails, the JSONL entry
already written stays in the log (no rollback), the index is simply left
unchanged, and — for an iteration whose cleaned analysis is truthy, so the
persist block runs at all — the loop iteration still completes all its
remaining steps (here: the short-term memory append still happens). -/
theorem dual_write_no_rollback (analysis ts raw : String)
    (log : List (String × String)) (db : List Database.VecDoc)
    (banned : List String) (threshold : Int) (cap : Nat) (notifyOk : Bool)
    (st : MainLoop.LoopState)
    (h : (MainLoop.cleanOutput raw).isEmpty = false) :
    (Database.saveMemory true false analysis ts log db).1.1 =
      log ++ [(ts, analysis)] ∧
    (Database.saveMemory true false analysis ts log db).1.2 = db ∧
    (MainLoop.loopIteration banned threshold cap true (Except.ok raw) ts
        true false notifyOk st).jsonl =
      st.jsonl ++ [(ts, MainLoop.cleanOutput raw)] ∧
    (MainLoop.loopIteration banned threshold cap true (Except.ok raw) ts
        true false notifyOk st).vectordb = st.vectordb ∧
    (MainLoop.loopIteration banned threshold cap true (Except.ok raw) ts
        true false notifyOk st).memory =
      MainLoop.dequePush cap st.memory
        (String.mk (MainLoop.extractSummaryMain
          (MainLoop.cleanOutput raw).toList)) := by
  refine ⟨rfl, rfl, ?_, ?_, ?_⟩ <;>
    simp [MainLoop.loopIteration, MainLoop.analyzeImageMain, h,
      Database.saveMemory, Database.saveToJsonl, Database.saveToVectordb]

/-- C6 witness: the no-rollback statement evaluated on a concrete state
with a truthy cleaned analysis (`clean_output "abc" = "abc [Geliştirme]"`),
the durable write succeeding and the index write failing. -/
theorem dual_write_no_rollback_witness :
    (MainLoop.loopIteration [] 3 5 true (Except.ok "abc")
        "2026-10-12T10:00:00" true false true ⟨[], [], [], 0⟩).jsonl =
      [("2026-10-12T10:00:00", MainLoop.cleanOutput "abc")] ∧
    (MainLoop.loopIteration [] 3 5 true (Except.ok "abc")
        "2026-10-12T10:00:00" true false true ⟨[], [], [], 0⟩).vectordb =
      [] := by
  have h := dual_write_no_rollback "x" "2026-10-12T10:00:00" "abc" [] [] []
    3 5 true ⟨[], [], [], 0⟩ (by decide)
  exact ⟨by simpa using h.2.2.1, by simpa using h.2.2.2.1⟩

/-- C8 counterexample: on a non-distracting analysis ("kod" matches no
banned keyword) from counter 4 with threshold 3, `check_distraction` does
not simply decrement to 3 with no warning: the shared threshold check that
runs after the decrement fires and resets the counter to 0. -/
theorem non_distraction_warning_counterexample :
    MainLoop.checkDistraction MainLoop.yasakliKelimeler 3 true "kod" 4 =
      (0, true) ∧
    MainLoop.checkDistraction MainLoop.yasakliKelimeler 3 true "kod" 4 ≠
      (3, false) := by
  decide

/-- C8 (amended): on a call where no banned keyword matches,
`check_distraction` decrements the counter by exactly one when it is
positive and leaves it at 0 when it is 0 — the counter never becomes
negative — and, provided the counter does not exceed the threshold (which
holds in every state reachable while notifications succeed), the
warning branch that runs after the decrement does not fire. -/
theorem non_distraction_cooldown (banned : List String) (threshold : Int)
    (notifyOk : Bool) (analysis : String) (count : Int)
    (hfree : banned.any
      (fun k => containsSeq (analysis.toList.map pyLower) k.toList) = false)
    (hthr : 0 < threshold) (hc0 : 0 ≤ count) (hct : count ≤ threshold) :
    MainLoop.checkDistraction banned threshold notifyOk analysis count =
      ((if 0 < count then count - 1 else count), false) ∧
    0 ≤ (MainLoop.checkDistraction banned threshold notifyOk analysis
      count).1 := by
  have hmain : MainLoop.checkDistraction banned threshold notifyOk analysis
      count = ((if 0 < count then count - 1 else count), false) := by
    simp only [MainLoop.checkDistraction, hfree, Bool.false_eq_true,
      if_false]
    rw [if_neg]
    split <;> omega
  refine ⟨hmain, ?_⟩
  rw [hmain]
  dsimp only
  split <;> omega

/-- C8 witness: the amended statement evaluated on the banned-keyword-free
analysis "kod" from counter 2, threshold 3. -/
theorem non_distraction_cooldown_witness :
    MainLoop.checkDistraction MainLoop.yasakliKelimeler 3 true "kod" 2 =
      (1, false) ∧
    0 ≤ (MainLoop.checkDistraction MainLoop.yasakliKelimeler 3 true "kod"
      2).1 := by
  have h := non_distraction_cooldown MainLoop.yasakliKelimeler 3 true "kod"
    2 (by decide) (by decide) (by decide) (by decide)
  refine ⟨?_, h.2⟩
  rw [h.1]
  decide
